import Mathlib

/-!
Shallow embedding of `src/fileconverter/fileconverter.py` (a Streamlit file
format converter).  Python values flowing through the pipeline are modelled
by explicit inductive types; the external libraries (pandas, geopandas,
json, yaml, xmltodict, zipfile) are modelled at the granularity the
repository's own control flow observes: a parser either yields a structured
value or raises, and raised messages are the library's documented messages.
Machine-level details (real byte buffers, file handles) are abstracted into
a `Content` payload plus a separate byte `size`, mirroring the input
boundary of the system (payload + file name + file size).
-/

set_option maxHeartbeats 1000000

namespace FileConverter

/-- Whether the first character list is a prefix of the second. -/
def listHasPrefix : List Char → List Char → Bool
| [], _ => true
| _ :: _, [] => false
| p :: ps, c :: cs => p == c && listHasPrefix ps cs

/-- Whether the first character list occurs inside the second. -/
def listSub (p : List Char) : List Char → Bool
| [] => listHasPrefix p []
| c :: cs => listHasPrefix p (c :: cs) || listSub p cs

/-- Python substring test `needle in hay` for strings (used by the source
as `'CSV' in input_format`). -/
def containsSub (needle hay : String) : Bool :=
  listSub needle.toList hay.toList

/-- Python `s.endswith(suffix)`. -/
def strEndsWith (s suffix : String) : Bool :=
  listHasPrefix suffix.toList.reverse s.toList.reverse

/-- Decimal digits to a number, rejecting any non-digit. -/
def digitsToNat : Nat → List Char → Option Nat
| acc, [] => some acc
| acc, c :: cs => if c.isDigit then digitsToNat (acc * 10 + (c.toNat - 48)) cs else none

/-- Integer lexical grammar accepted by pandas type inference. -/
def strToIntOpt (s : String) : Option Int :=
  match s.toList with
  | [] => none
  | '-' :: cs =>
    match cs with
    | [] => none
    | _ => (digitsToNat 0 cs).map (fun n => -(n : Int))
  | cs => (digitsToNat 0 cs).map (fun n => (n : Int))

/-- Geometry values (shapely geometries), coordinates as integers. -/
inductive Geometry
| point (x y : Int)
| lineString (pts : List (Int × Int))
| polygon (ring : List (Int × Int))

/-- One coordinate pair in WKT syntax. -/
def wktPair (p : Int × Int) : String :=
  toString p.1 ++ " " ++ toString p.2

/-- WKT rendering: Python `str()` of a shapely geometry. -/
def wkt : Geometry → String
| .point x y => "POINT (" ++ toString x ++ " " ++ toString y ++ ")"
| .lineString pts => "LINESTRING (" ++ String.intercalate ", " (pts.map wktPair) ++ ")"
| .polygon ring => "POLYGON ((" ++ String.intercalate ", " (ring.map wktPair) ++ "))"

/-- JSON-like values (what `json.load` / `yaml.safe_load` / `xmltodict.parse`
produce): null, booleans, integers, strings, arrays, objects with ordered
fields. -/
inductive JValue
| jnull
| jbool (b : Bool)
| jnum (n : Int)
| jstr (s : String)
| jarr (xs : List JValue)
| jobj (fields : List (String × JValue))

/-- A cell of a pandas DataFrame: scalar, geometry object, or an opaque
nested Python object (dict/list) kept unflattened in the cell. -/
inductive Value
| vnull
| vbool (b : Bool)
| vint (n : Int)
| vstr (s : String)
| vgeom (g : Geometry)
| vjson (j : JValue)

/-- A record: ordered mapping from column name to cell value. -/
abbrev Row := List (String × Value)

/-- Model of `pandas.DataFrame`: a list of records over a common schema. -/
structure DataFrame where
  rows : List Row

/-- Model of `geopandas.GeoDataFrame`: records (each carrying a
`"geometry"` cell) plus the CRS carried by the geometry column. -/
structure GeoDataFrame where
  rows : List Row
  crs : Option String

/-- The dynamic `data` value flowing through the pipeline; the source
dispatches on `isinstance(data, gpd.GeoDataFrame)`. -/
inductive Data
| df (d : DataFrame)
| gdf (g : GeoDataFrame)

/-- Result of a Python function that returns an `(value, error)` tuple:
either `(value, None)` or `(None, message)`. -/
inductive PyResult (α : Type)
| ok (a : α)
| err (msg : String)

/-- The column labels of a DataFrame (`data.columns`), read off the common
schema of its records. -/
def dfColumns (d : DataFrame) : List String :=
  (d.rows.headD []).map Prod.fst

/-- Python `str()` of a cell value. -/
def pyStrOfValue : Value → String
| .vnull => "None"
| .vbool true => "True"
| .vbool false => "False"
| .vint n => toString n
| .vstr s => s
| .vgeom g => wkt g
| .vjson _ => "<json>"

/-- XML document trees (what `xmltodict` reads and writes). -/
inductive Xml
| elem (tag : String) (children : List Xml)
| text (s : String)

/-- The uploaded payload, at the granularity the format-specific parsers
observe: which parser accepts it and what structured value it denotes.
`raw` stands for bytes no modelled parser accepts (e.g. not a zip
container). -/
inductive Content
| csv (cells : List (List String))
| jsonVal (j : JValue)
| excel (d : DataFrame)
| xml (t : Xml)
| yaml (j : JValue)
| zipArchive (entries : List (String × Content))
| kml (g : GeoDataFrame)
| shp (g : GeoDataFrame)
| gpkg (g : GeoDataFrame)
| raw (s : String)

/-- An uploaded file: name (drives suffix dispatch), byte size (supplied by
the input boundary), and payload. -/
structure UploadedFile where
  name : String
  size : Nat
  content : Content

/-- Source `create_zip_from_files`: writes each `(name, bytes)` pair of the
(insertion-ordered) mapping into a fresh zip container via `writestr`. -/
def create_zip_from_files (files : List (String × Content)) : Content :=
  .zipArchive (files.foldl (fun acc e => acc ++ [e]) [])

/-- The entry list of a zip container (empty for non-container bytes). -/
def zipEntries : Content → List (String × Content)
| .zipArchive entries => entries
| _ => []

/-- Source `extract_kmz`: opens the container (`zipfile.ZipFile` raises
`BadZipFile("File is not a zip file")` on non-container bytes), scans the
entry name list in order and returns the first member whose name ends in
`.kml`, or Python `None` when no entry matches. -/
def extract_kmz (c : Content) : Except String (Option Content) :=
  match c with
  | .zipArchive entries =>
      .ok ((entries.find? (fun e => strEndsWith e.1 ".kml")).map Prod.snd)
  | _ => .error "File is not a zip file"

/-- Replace a `geometry` cell by `str()` of its value, leave other cells
alone (the body of `csv_data['geometry'].apply(lambda x: str(x))`). -/
def geomToStrCell (kv : String × Value) : String × Value :=
  if kv.1 = "geometry" then (kv.1, .vstr (pyStrOfValue kv.2)) else kv

/-- Coerce a JSON scalar into a DataFrame cell; non-scalars are kept as an
opaque nested object in the cell, as pandas does. -/
def scalarValue : JValue → Value
| .jnull => .vnull
| .jbool b => .vbool b
| .jnum n => .vint n
| .jstr s => .vstr s
| v => .vjson v

/-- Cell value back to the JSON value `DataFrame.to_dict` would produce. -/
def jOfValue : Value → JValue
| .vnull => .jnull
| .vbool b => .jbool b
| .vint n => .jnum n
| .vstr s => .jstr s
| .vgeom g => .jstr (wkt g)
| .vjson j => j

mutual

/-- Compact JSON rendering of a value (model of `json`-style output). -/
def jsonRender : JValue → String
| .jnull => "null"
| .jbool true => "true"
| .jbool false => "false"
| .jnum n => toString n
| .jstr s => "\"" ++ s ++ "\""
| .jarr xs => "[" ++ String.intercalate ", " (jsonRenderList xs) ++ "]"
| .jobj fs => "\x7b" ++ String.intercalate ", " (jsonRenderFields fs) ++ "\x7d"

def jsonRenderList : List JValue → List String
| [] => []
| x :: xs => jsonRender x :: jsonRenderList xs

def jsonRenderFields : List (String × JValue) → List String
| [] => []
| (k, v) :: fs => ("\"" ++ k ++ "\": " ++ jsonRender v) :: jsonRenderFields fs

end

mutual

/-- Render an XML tree to markup text. -/
def renderXml : Xml → String
| .text s => s
| .elem t cs => "<" ++ t ++ ">" ++ renderXmlList cs ++ "</" ++ t ++ ">"

def renderXmlList : List Xml → String
| [] => ""
| x :: xs => renderXml x ++ renderXmlList xs

end

/-- The XML declaration `xmltodict.unparse` emits before the document. -/
def xmlDecl : String := "<?xml version=\"1.0\" encoding=\"utf-8\"?>\n"

mutual

/-- Model of `xmltodict.unparse` for one key/value pair: a string/number
under key `k` becomes one `<k>text</k>` element, a list becomes one element
per item, a mapping becomes one element with child elements per field. -/
def elemsOfKeyVal (k : String) : JValue → List Xml
| .jnull => [.elem k []]
| .jbool true => [.elem k [.text "True"]]
| .jbool false => [.elem k [.text "False"]]
| .jnum n => [.elem k [.text (toString n)]]
| .jstr s => [.elem k [.text s]]
| .jarr xs => elemsOfKeyList k xs
| .jobj fs => [.elem k (elemsOfFields fs)]

def elemsOfKeyList (k : String) : List JValue → List Xml
| [] => []
| x :: xs => elemsOfKeyVal k x ++ elemsOfKeyList k xs

def elemsOfFields : List (String × JValue) → List Xml
| [] => []
| (k, v) :: fs => elemsOfKeyVal k v ++ elemsOfFields fs

end

/-- First-occurrence-ordered distinct keys of an association list
(accumulator carries the keys already emitted). -/
def uniqueKeysAux (seen : List String) : List (String × JValue) → List String
| [] => []
| (k, _) :: rest =>
    if seen.contains k then uniqueKeysAux seen rest
    else k :: uniqueKeysAux (k :: seen) rest

/-- First-occurrence-ordered distinct keys of an association list. -/
def uniqueKeys (ps : List (String × JValue)) : List String :=
  uniqueKeysAux [] ps

/-- All values stored under key `k`, collapsed to the single value when the
key occurs once and to a JSON array when it repeats (`xmltodict`'s
push-to-list behaviour for repeated sibling tags). -/
def entryOf (k : String) (ps : List (String × JValue)) : JValue :=
  match (ps.filter (fun p => p.1 == k)).map Prod.snd with
  | [v] => v
  | vs => .jarr vs

/-- Group ordered (tag, value) pairs into the object `xmltodict.parse`
builds from an element's children. -/
def groupPairs (ps : List (String × JValue)) : JValue :=
  .jobj ((uniqueKeys ps).map (fun k => (k, entryOf k ps)))

mutual

/-- Model of `xmltodict.parse` on one element: no children parses to null,
a single text child to its string, otherwise the element children are
grouped by tag. -/
def xmlVal : Xml → JValue
| .text s => .jstr s
| .elem _ [] => .jnull
| .elem _ [.text s] => .jstr s
| .elem _ cs => groupPairs (xmlChildPairs cs)

def xmlChildPairs : List Xml → List (String × JValue)
| [] => []
| .text _ :: rest => xmlChildPairs rest
| .elem t cs :: rest => (t, xmlVal (.elem t cs)) :: xmlChildPairs rest

end

/-- Model of `xmltodict.parse` on a document: the root element becomes a
single-field object; a document without a root element is a syntax error
(`expat` message). -/
def xmlParseDoc : Xml → Except String JValue
| .elem t cs => .ok (.jobj [(t, xmlVal (.elem t cs))])
| .text _ => .error "syntax error: line 1, column 0"

/-- Flatten an object's fields into one record with dotted column names,
recursing into nested mappings; arrays and scalars become cells
(`pandas.json_normalize` flattening). -/
def flattenFields : String → List (String × JValue) → Row
| _, [] => []
| pre, (k, .jobj fs) :: rest =>
    flattenFields (pre ++ k ++ ".") fs ++ flattenFields pre rest
| pre, (k, v) :: rest => (pre ++ k, scalarValue v) :: flattenFields pre rest

def isJObj : JValue → Bool
| .jobj _ => true
| _ => false

/-- Model of `pandas.json_normalize`: a mapping yields one flattened
record, a list of mappings one flattened record per item. -/
def json_normalize (j : JValue) : Except String DataFrame :=
  match j with
  | .jobj fs => .ok ⟨[flattenFields "" fs]⟩
  | .jarr xs =>
    if xs.all isJObj then
      .ok ⟨xs.map (fun x => match x with
        | .jobj fs => flattenFields "" fs
        | _ => [])⟩
    else .error "data argument must be a dict or list of dicts"
  | _ => .error "data argument must be a dict or list of dicts"

/-- Python membership test `k in j` on a parsed JSON value: key lookup for
mappings, element equality for lists, substring for strings, a `TypeError`
for non-iterables. -/
def pyContains (k : String) : JValue → Except String Bool
| .jobj fs => .ok (fs.lookup k).isSome
| .jarr xs => .ok (xs.any (fun x => match x with
    | .jstr s => s == k
    | _ => false))
| .jstr s => .ok (containsSub k s)
| .jnull => .error "argument of type \x27NoneType\x27 is not iterable"
| .jbool _ => .error "argument of type \x27bool\x27 is not iterable"
| .jnum _ => .error "argument of type \x27int\x27 is not iterable"

/-- Python subscript `j[k]` with a string key: mapping lookup (a missing
key raises `KeyError` whose text is the quoted key), a `TypeError` on
lists and strings. -/
def pySubscript (j : JValue) (k : String) : Except String JValue :=
  match j with
  | .jobj fs =>
    match fs.lookup k with
    | some v => .ok v
    | none => .error ("\x27" ++ k ++ "\x27")
  | .jarr _ => .error "list indices must be integers or slices, not str"
  | .jstr _ => .error "string indices must be integers"
  | _ => .error "object is not subscriptable"

/-- Python equality `v == 'FeatureCollection'` (false, not an error, for
non-strings). -/
def isFCString : JValue → Bool
| .jstr s => s == "FeatureCollection"
| _ => false

/-- A JSON coordinate pair `[x, y]`. -/
def intPair : JValue → Option (Int × Int)
| .jarr [.jnum x, .jnum y] => some (x, y)
| _ => none

/-- Model of `shapely.geometry.shape` on a GeoJSON geometry mapping. -/
def shapeOfJson (j : JValue) : Except String Geometry :=
  match j with
  | .jobj fs =>
    match fs.lookup "type", fs.lookup "coordinates" with
    | some (.jstr "Point"), some c =>
      match intPair c with
      | some p => .ok (.point p.1 p.2)
      | none => .error "coordinates must be a pair of numbers"
    | some (.jstr "LineString"), some (.jarr cs) =>
      match cs.mapM intPair with
      | some ps => .ok (.lineString ps)
      | none => .error "coordinates must be pairs of numbers"
    | some (.jstr "Polygon"), some (.jarr [.jarr ring]) =>
      match ring.mapM intPair with
      | some ps => .ok (.polygon ps)
      | none => .error "coordinates must be pairs of numbers"
    | _, _ => .error "object is not a recognized geometry"
  | _ => .error "object is not a recognized geometry"

/-- One row of `GeoDataFrame.from_features`: the feature's properties as
attribute cells, the decoded geometry stored under `geometry`.  A feature
without a `geometry` or `properties` key raises `KeyError` (the code
subscripts both); a `properties` of `None` contributes no attribute
cells. -/
def featureRow (f : JValue) : Except String Row :=
  match f with
  | .jobj fs =>
    match fs.lookup "geometry" with
    | none => .error "\x27geometry\x27"
    | some gj =>
      match shapeOfJson gj with
      | .error e => .error e
      | .ok geo =>
        match fs.lookup "properties" with
        | none => .error "\x27properties\x27"
        | some .jnull => .ok [("geometry", .vgeom geo)]
        | some (.jobj pf) =>
            .ok (pf.map (fun kv => (kv.1, scalarValue kv.2)) ++ [("geometry", .vgeom geo)])
        | some _ => .error "properties must be a mapping"
  | _ => .error "feature must be a mapping"

/-- Model of `gpd.GeoDataFrame.from_features`: one row per feature; no CRS
is attached (`from_features` defaults to `crs=None`). -/
def fromFeatures (feats : JValue) : Except String GeoDataFrame :=
  match feats with
  | .jarr fs =>
    match fs.mapM featureRow with
    | .ok rows => .ok ⟨rows, none⟩
    | .error e => .error e
  | _ => .error "features must be a list"

/-- `pandas.read_csv` type inference on one textual cell: integer-looking
text becomes a number, anything else stays text. -/
def inferCell (s : String) : Value :=
  match strToIntOpt s with
  | some n => .vint n
  | none => .vstr s

/-- Model of `pandas.read_csv`: first line is the header, each further line
one record; an empty payload raises `EmptyDataError`. -/
def readCsvRows : List (List String) → Except String DataFrame
| [] => .error "No columns to parse from file"
| header :: body =>
    .ok ⟨body.map (fun r => (header.zip r).map (fun kv => (kv.1, inferCell kv.2)))⟩

def isScalarJ : JValue → Bool
| .jnull => true
| .jbool _ => true
| .jnum _ => true
| .jstr _ => true
| _ => false

def jarrOf : JValue → Option (List JValue)
| .jarr xs => some xs
| _ => none

/-- Model of the `pandas.DataFrame` constructor on a parsed JSON value: a
list of mappings gives one record per item, a list of scalars one
single-column record per item; a mapping with at least one array value
gives one record per array index (arrays must share one length, scalar
values are broadcast to every record); a non-empty mapping of only scalar
values raises, as do bare scalars.  Value shapes beyond these are outside
the model and yield sentinel messages. -/
def pdDataFrameOfJson (j : JValue) : Except String DataFrame :=
  match j with
  | .jarr xs =>
    if xs.all isJObj then
      .ok ⟨xs.map (fun x => match x with
        | .jobj fs => fs.map (fun kv => (kv.1, scalarValue kv.2))
        | _ => [])⟩
    else if xs.all isScalarJ then
      .ok ⟨xs.map (fun v => [("0", scalarValue v)])⟩
    else .error "mixed list values are not supported in this model"
  | .jobj fs =>
    match fs.find? (fun kv => (jarrOf kv.2).isSome) with
    | none =>
      match fs with
      | [] => .ok ⟨[]⟩
      | _ =>
        if fs.all (fun kv => isScalarJ kv.2) then
          .error "If using all scalar values, you must pass an index"
        else .error "nested mapping values are not supported in this model"
    | some c₀ =>
      let n := ((jarrOf c₀.2).getD []).length
      if fs.all (fun kv => match kv.2 with
          | .jarr xs => xs.length == n
          | v => isScalarJ v) then
        .ok ⟨(List.range n).map (fun i =>
          fs.map (fun kv => (kv.1, match kv.2 with
            | .jarr xs => scalarValue (xs.getD i .jnull)
            | v => scalarValue v)))⟩
      else if fs.all (fun kv => (jarrOf kv.2).isSome || isScalarJ kv.2) then
        .error "All arrays must be of the same length"
      else .error "mapping values other than scalars and arrays are not supported in this model"
  | _ => .error "DataFrame constructor not properly called!"

/-- Source `handle_shapefile_upload`: materialise the uploaded files, pick
the first `.shp` among them, read it with the shapefile driver; reading
failures are wrapped as `Error reading shapefile: ...`. -/
def handle_shapefile_upload (files : List UploadedFile) : PyResult GeoDataFrame :=
  match files.find? (fun f => strEndsWith f.name ".shp") with
  | none => .err "No .shp file found in uploaded files"
  | some f =>
    match f.content with
    | .shp g => .ok g
    | _ => .err "Error reading shapefile: not recognized as a supported file format"

/-- The non-FeatureCollection leg of the JSON branch of `load_file`:
`pd.DataFrame(json_data)`, with construction errors caught by the
surrounding handler. -/
def loadJsonFallback (j : JValue) : PyResult Data :=
  match pdDataFrameOfJson j with
  | .ok d => .ok (.df d)
  | .error e => .err ("Error loading file: " ++ e)

/-- The shared `JSON` / `GeoJSON` branch of `load_file` (source lines
66-71): if the parsed payload has a top-level `type` equal to
`FeatureCollection`, build a GeoDataFrame from its `features`; otherwise
build a plain DataFrame.  Every raised exception is caught by the handler
and wrapped as `Error loading file: ...`. -/
def loadJson (j : JValue) : PyResult Data :=
  match pyContains "type" j with
  | .error e => .err ("Error loading file: " ++ e)
  | .ok b =>
    if b then
      match pySubscript j "type" with
      | .error e => .err ("Error loading file: " ++ e)
      | .ok v =>
        if isFCString v then
          match pySubscript j "features" with
          | .error e => .err ("Error loading file: " ++ e)
          | .ok feats =>
            match fromFeatures feats with
            | .error e => .err ("Error loading file: " ++ e)
            | .ok g => .ok (.gdf g)
        else loadJsonFallback j
    else loadJsonFallback j

/-- Source `load_file` (lines 61-97): dispatch on the declared input
format, parse with the matching library, wrap any raised exception as
`Error loading file: ...`.  The payload's byte size is never consulted. -/
def load_file (uploaded_file : UploadedFile) (input_format : String)
    (additional_files : List UploadedFile) : PyResult Data :=
  if containsSub "CSV" input_format then
    match uploaded_file.content with
    | .csv cells =>
      match readCsvRows cells with
      | .ok d => .ok (.df d)
      | .error e => .err ("Error loading file: " ++ e)
    | _ => .err "Error loading file: Error tokenizing data"
  else if input_format = "JSON" ∨ input_format = "GeoJSON" then
    match uploaded_file.content with
    | .jsonVal j => loadJson j
    | _ => .err "Error loading file: Expecting value: line 1 column 1 (char 0)"
  else if input_format = "Excel" then
    match uploaded_file.content with
    | .excel d => .ok (.df d)
    | _ => .err "Error loading file: File is not a zip file"
  else if input_format = "XML" then
    match uploaded_file.content with
    | .xml t =>
      match xmlParseDoc t with
      | .error e => .err ("Error loading file: " ++ e)
      | .ok j =>
        match json_normalize j with
        | .ok d => .ok (.df d)
        | .error e => .err ("Error loading file: " ++ e)
    | _ => .err "Error loading file: syntax error: line 1, column 0"
  else if input_format = "YAML" then
    match uploaded_file.content with
    | .yaml j =>
      match json_normalize j with
      | .ok d => .ok (.df d)
      | .error e => .err ("Error loading file: " ++ e)
    | _ => .err "Error loading file: could not determine a constructor for the payload"
  else if input_format = "KML/KMZ" then
    if strEndsWith uploaded_file.name ".kmz" then
      match extract_kmz uploaded_file.content with
      | .error e => .err ("Error loading file: " ++ e)
      | .ok none => .err "No KML file found in KMZ archive"
      | .ok (some m) =>
        match m with
        | .kml g => .ok (.gdf g)
        | _ => .err "Error loading file: not recognized as a supported file format"
    else
      match uploaded_file.content with
      | .kml g => .ok (.gdf g)
      | _ => .err "Error loading file: not recognized as a supported file format"
  else if input_format = "Shapefile" then
    if additional_files.isEmpty then
      .err "Shapefile requires additional supporting files (.dbf, .shx, etc.)"
    else
      match handle_shapefile_upload (uploaded_file :: additional_files) with
      | .ok g => .ok (.gdf g)
      | .err e => .err e
  else if input_format = "GPKG" then
    match uploaded_file.content with
    | .gpkg g => .ok (.gdf g)
    | _ => .err "Error loading file: not recognized as a supported file format"
  else
    .err ("Unsupported input format: " ++ input_format)

/-- Geometry argument accepted by `shapely.geometry.shape` inside
`from_features`: a geometry object (via its geo interface) or a GeoJSON
mapping; anything else raises. -/
def geomOfCell (v : Value) : Except String Geometry :=
  match v with
  | .vgeom g => .ok g
  | .vjson j => shapeOfJson j
  | _ => .error "object is not a recognized geometry"

/-- The `df → GeoJSON` leg of `convert_file`: build one Feature per record
from the `geometry` column plus the remaining columns as properties, then
`GeoDataFrame.from_features`. -/
def dfToFeatures (d : DataFrame) : Except String GeoDataFrame :=
  match d.rows.mapM (fun (row : Row) =>
    match row.lookup "geometry" with
    | none => Except.error "\x27geometry\x27"
    | some gv =>
      match geomOfCell gv with
      | .error e => Except.error e
      | .ok geo =>
          Except.ok ((row.filter (fun (kv : String × Value) => kv.1 != "geometry")) ++
            [("geometry", Value.vgeom geo)])) with
  | .ok rows => .ok ⟨rows, none⟩
  | .error e => .error e

/-- Cell after a `to_dict → xmltodict.unparse → pd.read_xml` round trip
(the `df → XML` leg of `convert_file`): values pass through text and are
re-inferred. -/
def xmlRoundCell (v : Value) : Value :=
  match v with
  | .vint n => .vint n
  | .vbool b => .vbool b
  | .vnull => .vnull
  | .vstr s => inferCell s
  | v => .vstr (pyStrOfValue v)

def readXmlModel (d : DataFrame) : DataFrame :=
  ⟨d.rows.map (fun row => row.map (fun kv => (kv.1, xmlRoundCell kv.2)))⟩

/-- Source `convert_file` (lines 99-137): branch on whether `data` is a
GeoDataFrame, then on the target format.  When `data` is a GeoDataFrame
and the target is neither a CSV variant nor one of the four geospatial
formats, no branch returns, so the Python function falls off the end and
returns bare `None` — modelled by `Option.none`; every returning path
yields `some` of a `(value, error)` pair. -/
def convert_file (data : Data) (output_format : String) : Option (PyResult Data) :=
  match data with
  | .gdf g =>
    if containsSub "CSV" output_format then
      some (.ok (.df ⟨g.rows.map (fun row => row.map geomToStrCell)⟩))
    else if output_format = "GeoJSON" ∨ output_format = "KML/KMZ" ∨
        output_format = "Shapefile" ∨ output_format = "GPKG" then
      some (.ok (.gdf g))
    else none
  | .df d =>
    if containsSub "CSV" output_format then
      some (.ok (.df d))
    else if output_format = "JSON" then
      some (.ok (.df d))
    else if output_format = "GeoJSON" then
      if (dfColumns d).contains "geometry" then
        match dfToFeatures d with
        | .ok g => some (.ok (.gdf g))
        | .error e => some (.err ("Error converting file: " ++ e))
      else some (.err "Missing geometry column for GeoJSON conversion")
    else if output_format = "Excel" then
      some (.ok (.df d))
    else if output_format = "XML" then
      some (.ok (.df (readXmlModel d)))
    else if output_format = "YAML" then
      some (.ok (.df d))
    else if output_format = "KML/KMZ" ∨ output_format = "Shapefile" ∨
        output_format = "GPKG" then
      some (.err "Data must be spatial (GeoDataFrame) for this format")
    else
      some (.err ("Unsupported output format: " ++ output_format))

/-- The records of either frame kind (shared by the serializers that work
on both pandas and geopandas frames). -/
def rowsOf : Data → List Row
| .df d => d.rows
| .gdf g => g.rows

/-- Model of `DataFrame.to_csv(index=False)`: header line, then one line
per record. -/
def encodeCsv (rows : List Row) : String :=
  String.intercalate "," ((rows.headD []).map Prod.fst) ++ "\n" ++
    String.intercalate "" (rows.map (fun r =>
      String.intercalate "," (r.map (fun kv => pyStrOfValue kv.2)) ++ "\n"))

/-- Model of `DataFrame.to_excel` output bytes. -/
def encodeExcel (rows : List Row) : String :=
  "xlsx;" ++ encodeCsv rows

/-- Model of `DataFrame.to_json(orient='records')`. -/
def encodeJsonRecords (rows : List Row) : String :=
  jsonRender (.jarr (rows.map (fun r => .jobj (r.map (fun kv => (kv.1, jOfValue kv.2))))))

/-- Model of plain `DataFrame.to_json()` (default columns orient). -/
def encodeJsonColumns (rows : List Row) : String :=
  jsonRender (.jobj (((rows.headD []).map Prod.fst).map (fun k =>
    (k, .jarr (rows.map (fun r => jOfValue ((r.lookup k).getD .vnull)))))))

/-- GeoJSON text of one geometry cell. -/
def geomJson (v : Value) : String :=
  match v with
  | .vgeom (.point x y) =>
      "\x7b\"type\": \"Point\", \"coordinates\": [" ++ toString x ++ ", " ++
        toString y ++ "]\x7d"
  | .vgeom g => "\x7b\"type\": \"Geometry\", \"wkt\": \"" ++ wkt g ++ "\"\x7d"
  | _ => "null"

/-- GeoJSON text of one feature: the non-geometry cells as properties, the
geometry cell encoded verbatim. -/
def featureJson (r : Row) : String :=
  "\x7b\"type\": \"Feature\", \"properties\": " ++
    jsonRender (.jobj ((r.filter (fun (kv : String × Value) => kv.1 != "geometry")).map
      (fun kv => (kv.1, jOfValue kv.2)))) ++
    ", \"geometry\": " ++ geomJson ((r.lookup "geometry").getD .vnull) ++ "\x7d"

/-- Model of `GeoDataFrame.to_json()`: a FeatureCollection whose features
carry the stored coordinates unchanged; the frame's CRS is not consulted
and no reprojection happens. -/
def encodeGeoJson (rows : List Row) : String :=
  "\x7b\"type\": \"FeatureCollection\", \"features\": [" ++
    String.intercalate ", " (rows.map featureJson) ++ "]\x7d"

/-- Coordinate text of one geometry cell for the KML driver. -/
def kmlCoord (v : Value) : String :=
  match v with
  | .vgeom (.point x y) => toString x ++ "," ++ toString y
  | .vgeom g => wkt g
  | _ => ""

/-- Model of `to_file(driver='KML')`: placemarks carrying the stored
coordinates unchanged; the CRS is not consulted. -/
def encodeKml (rows : List Row) : String :=
  xmlDecl ++ "<kml><Document>" ++
    String.intercalate "" (rows.map (fun r =>
      "<Placemark><Point><coordinates>" ++
        kmlCoord ((r.lookup "geometry").getD .vnull) ++
        "</coordinates></Point></Placemark>")) ++
    "</Document></kml>"

/-- Model of `yaml.dump` of the record list. -/
def encodeYaml (rows : List Row) : String :=
  String.intercalate "" (rows.map (fun r =>
    "-" ++ String.intercalate "" (r.map (fun kv =>
      " " ++ kv.1 ++ ": " ++ pyStrOfValue kv.2)) ++ "\n"))

/-- Model of the zipped ESRI Shapefile component set written by the
Shapefile branch; the driver persists the source CRS into the `.prj`
member, coordinates unchanged. -/
def encodeShpZip (rows : List Row) (crs : Option String) : String :=
  "shpzip;" ++ encodeCsv rows ++ ";prj=" ++ crs.getD ""

/-- Model of the GPKG container written by `to_file(driver='GPKG')`; the
driver persists the source CRS, coordinates unchanged. -/
def encodeGpkg (rows : List Row) (crs : Option String) : String :=
  "gpkg;" ++ encodeCsv rows ++ ";srs=" ++ crs.getD ""

/-- The XML elements `xmltodict.unparse` produces for one record cell. -/
def fieldElem (kv : String × Value) : List Xml :=
  elemsOfKeyVal kv.1 (jOfValue kv.2)

/-- One `<record>` element per record (`unparse({'root': {'record':
data.to_dict(orient='records')}})`). -/
def recordElem (row : Row) : Xml :=
  .elem "record" (row.flatMap fieldElem)

/-- Outcome of `get_download_data`: a returned `(bytes, mime)` pair, an
uncaught exception, or the bare `None` the function falls into for a
format no branch matches (the source has no `try`, no error slot and no
final `else`). -/
inductive Ser
| bytes (b : String) (mime : String)
| exn (e : String)
| pyNone

/-- Source `get_download_data` (lines 155-189): serialize the converted
frame per target format.  Geospatial targets encode the stored geometries
as they are — nothing calls `to_crs`, so no reprojection to any output CRS
occurs and a missing CRS is never detected; plain frames reaching a
`to_file` target raise `AttributeError`; unknown formats fall off the end
(Python `None`). -/
def get_download_data (data : Data) (output_format : String) : Ser :=
  if output_format = "Excel" then
    .bytes (encodeExcel (rowsOf data))
      "application/vnd.openxmlformats-officedocument.spreadsheetml.sheet"
  else if containsSub "CSV" output_format then
    .bytes (encodeCsv (rowsOf data)) "text/csv"
  else if output_format = "JSON" then
    .bytes (encodeJsonRecords (rowsOf data)) "application/json"
  else if output_format = "GeoJSON" then
    match data with
    | .gdf g => .bytes (encodeGeoJson g.rows) "application/json"
    | .df d => .bytes (encodeJsonColumns d.rows) "application/json"
  else if output_format = "XML" then
    .bytes (xmlDecl ++ renderXml (.elem "root" ((rowsOf data).map recordElem)))
      "application/xml"
  else if output_format = "YAML" then
    .bytes (encodeYaml (rowsOf data)) "application/x-yaml"
  else if output_format = "KML/KMZ" then
    match data with
    | .gdf g => .bytes (encodeKml g.rows) "application/vnd.google-earth.kml+xml"
    | .df _ => .exn "AttributeError: \x27DataFrame\x27 object has no attribute \x27to_file\x27"
  else if output_format = "Shapefile" then
    match data with
    | .gdf g => .bytes (encodeShpZip g.rows g.crs) "application/zip"
    | .df _ => .exn "AttributeError: \x27DataFrame\x27 object has no attribute \x27to_file\x27"
  else if output_format = "GPKG" then
    match data with
    | .gdf g => .bytes (encodeGpkg g.rows g.crs) "application/geopackage+sqlite3"
    | .df _ => .exn "AttributeError: \x27DataFrame\x27 object has no attribute \x27to_file\x27"
  else .pyNone

/-- What the driver in `main` (lines 316-353) does with one conversion
request: shows the stage error and stops, crashes on an unpackable result,
or offers the bytes for download. -/
inductive PipelineOutcome
| loadError (msg : String)
| convertError (msg : String)
| crash (msg : String)
| success (b mime : String)

/-- The conversion pipeline of `main`: load, stop on a load error;
convert, stop on a convert error (tuple unpacking of a bare `None` raises
`TypeError`); serialize and hand out the bytes. -/
def run_pipeline (f : UploadedFile) (input_format output_format : String)
    (additional_files : List UploadedFile) : PipelineOutcome :=
  match load_file f input_format additional_files with
  | .err e => .loadError e
  | .ok data =>
    match convert_file data output_format with
    | none => .crash "TypeError: cannot unpack non-iterable NoneType object"
    | some (.err e) => .convertError e
    | some (.ok converted) =>
      match get_download_data converted output_format with
      | .pyNone => .crash "TypeError: cannot unpack non-iterable NoneType object"
      | .exn e => .crash e
      | .bytes b mime => .success b mime

/-! ## Claim C1 — payload size limit -/

/-- Claim C1 is false on the code: `load_file` contains no size check and
no `PayloadTooLarge` failure.  At the concrete input of one byte more than
the claimed 200 MiB maximum (209715201 bytes), loading succeeds and the
payload is parsed, where the claim demands a `PayloadTooLarge` failure
before any parsing. -/
theorem c1_counterexample :
    200 * 1024 * 1024 + 1 > 200 * 1024 * 1024 ∧
    load_file ⟨"big.csv", 200 * 1024 * 1024 + 1, .csv [["a"], ["1"]]⟩
        "CSV (general)" [] =
      .ok (.df ⟨[[("a", .vint 1)]]⟩) :=
  ⟨by omega, rfl⟩

/-- Claim C1 (amended): `load_file` enforces no payload-size limit at all —
its result is entirely independent of the payload's byte size, so inputs of
any size proceed to parsing and no `PayloadTooLarge` error exists. -/
theorem c1_amended (name : String) (n m : Nat) (c : Content) (fmt : String)
    (af : List UploadedFile) :
    load_file ⟨name, n, c⟩ fmt af = load_file ⟨name, m, c⟩ fmt af := by
  have hshp : handle_shapefile_upload (⟨name, n, c⟩ :: af) =
      handle_shapefile_upload (⟨name, m, c⟩ :: af) := by
    unfold handle_shapefile_upload
    cases h : strEndsWith name ".shp" <;> simp [List.find?, h]
  simp only [load_file]
  split_ifs <;> first
    | rfl
    | rw [hshp]

/-! ## Claim C2 — plain → geospatial conversion -/

/-- Claim C2 is false on the code: a plain record set with conventional
coordinate columns (`latitude`, `longitude`) converted to the geospatial
target `KML/KMZ` is rejected outright with the spatial-data error — no
coordinate fields are looked up, no Point geometry is synthesized, and no
`MissingCoordinateColumns` error with a record index exists. -/
theorem c2_counterexample :
    convert_file
        (.df ⟨[[("name", .vstr "a"), ("latitude", .vint 1), ("longitude", .vint 2)]]⟩)
        "KML/KMZ" =
      some (.err "Data must be spatial (GeoDataFrame) for this format") := rfl

/-- Claim C2 (amended): for a plain record set, the geospatial targets
`KML/KMZ`, `Shapefile` and `GPKG` always fail with the spatial-data error
regardless of any coordinate columns, and the `GeoJSON` target requires a
literal `geometry` column (failing with the missing-geometry-column error
when absent); no coordinate-name detection or Point synthesis occurs
anywhere. -/
theorem c2_amended :
    (∀ (d : DataFrame) (fmt : String),
        fmt = "KML/KMZ" ∨ fmt = "Shapefile" ∨ fmt = "GPKG" →
        convert_file (.df d) fmt =
          some (.err "Data must be spatial (GeoDataFrame) for this format")) ∧
    (∀ d : DataFrame, "geometry" ∉ dfColumns d →
        convert_file (.df d) "GeoJSON" =
          some (.err "Missing geometry column for GeoJSON conversion")) := by
  constructor
  · intro d fmt h
    rcases h with h | h | h <;> subst h <;> rfl
  · intro d h
    simp [convert_file, containsSub, listSub, listHasPrefix, h]

/-- Concrete instance of the amended Claim C2 at a record set with
coordinate columns. -/
theorem c2_amended_witness :
    convert_file
        (.df ⟨[[("name", .vstr "a"), ("latitude", .vint 1), ("longitude", .vint 2)]]⟩)
        "Shapefile" =
      some (.err "Data must be spatial (GeoDataFrame) for this format") ∧
    convert_file
        (.df ⟨[[("name", .vstr "a"), ("latitude", .vint 1), ("longitude", .vint 2)]]⟩)
        "GeoJSON" =
      some (.err "Missing geometry column for GeoJSON conversion") :=
  ⟨c2_amended.1 _ "Shapefile" (Or.inr (Or.inl rfl)), c2_amended.2 _ (by decide)⟩

/-! ## Claim C3 — reprojection to WGS84 -/

/-- Claim C3 is false on the code: a geospatial record set with NO source
CRS serializes to GeoJSON successfully, emitting the stored coordinates
verbatim, where the claim demands a `ReprojectionFailed` error when the
source CRS is missing (and WGS84 reprojection otherwise — the raw
coordinates `[100, 200]` appear unchanged in the output). -/
theorem c3_counterexample :
    get_download_data (.gdf ⟨[[("geometry", .vgeom (.point 100 200))]], none⟩)
        "GeoJSON" =
      .bytes "\x7b\"type\": \"FeatureCollection\", \"features\": [\x7b\"type\": \"Feature\", \"properties\": \x7b\x7d, \"geometry\": \x7b\"type\": \"Point\", \"coordinates\": [100, 200]\x7d\x7d]\x7d"
        "application/json" := by
  simp only [get_download_data, encodeGeoJson, featureJson, geomJson, jsonRender,
    jsonRenderFields, containsSub, listSub, listHasPrefix]
  rfl

/-- Claim C3 (amended): `get_download_data` performs no reprojection: for
the GeoJSON and KML targets the produced bytes are entirely independent of
the source CRS (present, absent, or arbitrary), geometries are encoded
with their stored coordinates, and serialization always yields bytes —
never a `ReprojectionFailed` error — even when the source CRS is missing. -/
theorem c3_amended :
    (∀ (rows : List Row) (c₁ c₂ : Option String),
        get_download_data (.gdf ⟨rows, c₁⟩) "GeoJSON" =
          get_download_data (.gdf ⟨rows, c₂⟩) "GeoJSON") ∧
    (∀ (rows : List Row) (c₁ c₂ : Option String),
        get_download_data (.gdf ⟨rows, c₁⟩) "KML/KMZ" =
          get_download_data (.gdf ⟨rows, c₂⟩) "KML/KMZ") ∧
    (∀ (rows : List Row) (crs : Option String), ∃ b,
        get_download_data (.gdf ⟨rows, crs⟩) "GeoJSON" = .bytes b "application/json") :=
  ⟨fun _ _ _ => rfl, fun _ _ _ => rfl, fun rows _ => ⟨encodeGeoJson rows, rfl⟩⟩

/-! ## Claim C10 — convert_file falls off the end -/

/-- Claim C10: for a geospatial frame and a target format that is neither
a CSV variant nor one of the four geospatial formats, no branch of
`convert_file` returns, so the Python function yields a bare `None`
instead of a `(data, error)` pair, and the driver's tuple unpacking of
that `None` raises `TypeError` — reachable because a FeatureCollection
payload uploaded under the plain `JSON` format loads as a GeoDataFrame. -/
theorem c10_convert_falls_through (g : GeoDataFrame) (fmt : String)
    (h₁ : containsSub "CSV" fmt = false)
    (h₂ : fmt ≠ "GeoJSON") (h₃ : fmt ≠ "KML/KMZ")
    (h₄ : fmt ≠ "Shapefile") (h₅ : fmt ≠ "GPKG") :
    convert_file (.gdf g) fmt = none ∧
    (∀ (f : UploadedFile) (af : List UploadedFile),
        load_file f "JSON" af = .ok (.gdf g) →
        run_pipeline f "JSON" fmt af =
          .crash "TypeError: cannot unpack non-iterable NoneType object") := by
  have hconv : convert_file (.gdf g) fmt = none := by
    simp [convert_file, h₁, h₂, h₃, h₄, h₅]
  exact ⟨hconv, fun f af hload => by simp [run_pipeline, hload, hconv]⟩

/-- Concrete instance of Claim C10: a FeatureCollection uploaded as plain
JSON loads as a GeoDataFrame, whose conversion to target `JSON` yields
`None` and crashes the driver. -/
theorem c10_witness :
    convert_file
        (.gdf ⟨[[("name", .vstr "a"), ("geometry", .vgeom (.point 1 2))]], none⟩)
        "JSON" = none ∧
    run_pipeline
        ⟨"d.json", 5, .jsonVal (.jobj
          [("type", .jstr "FeatureCollection"),
           ("features", .jarr [.jobj
             [("type", .jstr "Feature"),
              ("geometry", .jobj [("type", .jstr "Point"),
                                  ("coordinates", .jarr [.jnum 1, .jnum 2])]),
              ("properties", .jobj [("name", .jstr "a")])]])])⟩
        "JSON" "JSON" [] =
      .crash "TypeError: cannot unpack non-iterable NoneType object" :=
  have h := c10_convert_falls_through
    ⟨[[("name", .vstr "a"), ("geometry", .vgeom (.point 1 2))]], none⟩
    "JSON" rfl (by decide) (by decide) (by decide) (by decide)
  ⟨h.1, h.2 _ [] rfl⟩

/-! ## Claim C4 — KMZ failure kinds -/

/-- Claim C4 is false on the code in its first half: malformed container
bytes surface as the generic `Error loading file: ...` catch-all wrapper —
the very same wrapper used for unrelated failures such as malformed XML —
so there is no distinct `ArchiveCorrupt` error kind a caller could
distinguish. -/
theorem c4_counterexample :
    load_file ⟨"x.kmz", 4, .raw "garbage"⟩ "KML/KMZ" [] =
      .err "Error loading file: File is not a zip file" ∧
    load_file ⟨"b.xml", 4, .raw "notxml"⟩ "XML" [] =
      .err "Error loading file: syntax error: line 1, column 0" := ⟨rfl, rfl⟩

/-- Claim C4 (amended): malformed container bytes fail with the generic
wrapped zip-library message (no distinct error kind), while a well-formed
container without a `.kml` member fails with the dedicated
`No KML file found in KMZ archive` message and no record set is
returned. -/
theorem c4_amended :
    (∀ (nm : String) (sz : Nat) (s : String) (af : List UploadedFile),
        strEndsWith nm ".kmz" = true →
        load_file ⟨nm, sz, .raw s⟩ "KML/KMZ" af =
          .err "Error loading file: File is not a zip file") ∧
    (∀ (nm : String) (sz : Nat) (entries : List (String × Content))
        (af : List UploadedFile),
        strEndsWith nm ".kmz" = true →
        (∀ e ∈ entries, strEndsWith e.1 ".kml" = false) →
        load_file ⟨nm, sz, .zipArchive entries⟩ "KML/KMZ" af =
          .err "No KML file found in KMZ archive") := by
  constructor
  · intro nm sz s af h
    simp [load_file, extract_kmz, h, containsSub, listSub, listHasPrefix]
  · intro nm sz entries af h hnone
    have hfind : entries.find? (fun e => strEndsWith e.1 ".kml") = none :=
      List.find?_eq_none.mpr (fun e he => by simp [hnone e he])
    simp [load_file, extract_kmz, h, hfind, containsSub, listSub, listHasPrefix]

/-- Concrete instance of the amended Claim C4. -/
theorem c4_amended_witness :
    load_file ⟨"w.kmz", 7, .raw "junk"⟩ "KML/KMZ" [] =
      .err "Error loading file: File is not a zip file" ∧
    load_file ⟨"w.kmz", 7, .zipArchive [("doc.txt", .raw "t")]⟩ "KML/KMZ" [] =
      .err "No KML file found in KMZ archive" :=
  ⟨c4_amended.1 "w.kmz" 7 "junk" [] rfl,
   c4_amended.2 "w.kmz" 7 [("doc.txt", .raw "t")] [] rfl (by decide)⟩

/-! ## Claim C5 — archive pack/unpack inverse -/

/-- Claim C5: packing an insertion-ordered set of (name, bytes) pairs with
`create_zip_from_files` produces a container whose entries are exactly the
provided pairs in order, and unpacking with `extract_kmz`'s
first-entry-ending-in-`.kml` predicate returns exactly the bytes of the
first matching entry. -/
theorem c5_pack_unpack (pre post : List (String × Content)) (k : String)
    (c : Content)
    (hpre : ∀ e ∈ pre, strEndsWith e.1 ".kml" = false)
    (hk : strEndsWith k ".kml" = true) :
    zipEntries (create_zip_from_files (pre ++ (k, c) :: post)) =
      pre ++ (k, c) :: post ∧
    extract_kmz (create_zip_from_files (pre ++ (k, c) :: post)) =
      .ok (some c) := by
  have hfold : ∀ (files acc : List (String × Content)),
      files.foldl (fun a e => a ++ [e]) acc = acc ++ files := by
    intro files
    induction files with
    | nil => intro acc; simp
    | cons e rest ih => intro acc; simp [ih]
  have hfind : ∀ (l : List (String × Content)),
      (∀ e ∈ l, strEndsWith e.1 ".kml" = false) →
      (l ++ (k, c) :: post).find? (fun e => strEndsWith e.1 ".kml") = some (k, c) := by
    intro l hl
    induction l with
    | nil => simp [List.find?, hk]
    | cons e rest ih =>
      have he : strEndsWith e.1 ".kml" = false := hl e (by simp)
      simp only [List.cons_append, List.find?, he]
      exact ih (fun x hx => hl x (by simp [hx]))
  refine ⟨?_, ?_⟩
  · simp [create_zip_from_files, zipEntries, hfold]
  · simp [create_zip_from_files, extract_kmz, hfold, hfind pre hpre]

/-- Concrete instance of Claim C5: among three packed members the bytes of
the first `.kml` entry come back, not those of a later `.kml` entry. -/
theorem c5_witness :
    zipEntries (create_zip_from_files
        [("doc.txt", .raw "t"), ("doc.kml", .raw "kmlbytes"), ("z.kml", .raw "other")]) =
      [("doc.txt", .raw "t"), ("doc.kml", .raw "kmlbytes"), ("z.kml", .raw "other")] ∧
    extract_kmz (create_zip_from_files
        [("doc.txt", .raw "t"), ("doc.kml", .raw "kmlbytes"), ("z.kml", .raw "other")]) =
      .ok (some (.raw "kmlbytes")) :=
  c5_pack_unpack [("doc.txt", .raw "t")] [("z.kml", .raw "other")]
    "doc.kml" (.raw "kmlbytes") (by decide) rfl

/-! ## Claim C6 — geospatial → CSV projection -/

/-- Lookup after the geometry-stringification map: the cell under
`geometry` is stringified, every other cell is untouched (keys are
preserved by the map). -/
theorem lookup_map_geomToStrCell (row : Row) (k : String) :
    (row.map geomToStrCell).lookup k =
      (row.lookup k).map
        (fun v => if k = "geometry" then Value.vstr (pyStrOfValue v) else v) := by
  induction row with
  | nil => rfl
  | cons kv rest ih =>
    obtain ⟨k₀, v₀⟩ := kv
    by_cases hg : k₀ = "geometry"
    · subst hg
      have hcell : geomToStrCell ("geometry", v₀) =
          ("geometry", Value.vstr (pyStrOfValue v₀)) := by
        simp [geomToStrCell]
      rw [List.map_cons, hcell]
      by_cases hkk : k = "geometry"
      · subst hkk
        simp [List.lookup, ih]
      · have hb : (k == "geometry") = false := by simp [hkk]
        simp [List.lookup, hb, ih]
    · have hcell : geomToStrCell (k₀, v₀) = (k₀, v₀) := by
        simp [geomToStrCell, hg]
      rw [List.map_cons, hcell]
      by_cases hkk : k = k₀
      · subst hkk
        simp [List.lookup, ih, hg]
      · have hb : (k == k₀) = false := by simp [hkk]
        simp [List.lookup, hb, ih]

/-- Claim C6: converting a geospatial record set to a CSV target yields a
plain frame (hence with no CRS metadata attached) with one record per
input record, in which the `geometry` cell of every record is replaced by
its WKT text and every other cell keeps its name and value. -/
theorem c6_gdf_to_csv (g : GeoDataFrame) (fmt : String)
    (hfmt : containsSub "CSV" fmt = true) :
    ∃ d : DataFrame,
      convert_file (.gdf g) fmt = some (.ok (.df d)) ∧
      d.rows.length = g.rows.length ∧
      (∀ (i : Nat) (hd : i < d.rows.length) (hg : i < g.rows.length) (k : String),
          k ≠ "geometry" →
          (d.rows.get ⟨i, hd⟩).lookup k = (g.rows.get ⟨i, hg⟩).lookup k) ∧
      (∀ (i : Nat) (hd : i < d.rows.length) (hg : i < g.rows.length)
          (geo : Geometry),
          (g.rows.get ⟨i, hg⟩).lookup "geometry" = some (.vgeom geo) →
          (d.rows.get ⟨i, hd⟩).lookup "geometry" = some (.vstr (wkt geo))) := by
  refine ⟨⟨g.rows.map (fun row => row.map geomToStrCell)⟩, by simp [convert_file, hfmt],
    by simp, ?_, ?_⟩
  · intro i hd hg k hk
    simp only [List.get_eq_getElem, List.getElem_map]
    rw [lookup_map_geomToStrCell]
    simp [hk]
  · intro i hd hg geo hgeo
    simp only [List.get_eq_getElem] at hgeo ⊢
    simp only [List.getElem_map]
    rw [lookup_map_geomToStrCell, hgeo]
    simp [pyStrOfValue]

/-- Concrete instance of Claim C6 at a one-record geospatial frame with a
name attribute, a point geometry and a CRS. -/
theorem c6_witness :
    ∃ d : DataFrame,
      convert_file
          (.gdf ⟨[[("name", .vstr "a"), ("geometry", .vgeom (.point 1 2))]],
                 some "EPSG:4326"⟩)
          "CSV (general)" = some (.ok (.df d)) ∧
      d.rows.length = 1 ∧
      (∀ (i : Nat) (hd : i < d.rows.length) (hg : i < (1 : Nat)) (k : String),
          k ≠ "geometry" →
          (d.rows.get ⟨i, hd⟩).lookup k =
            ([[("name", Value.vstr "a"),
               ("geometry", Value.vgeom (.point 1 2))]].get ⟨i, hg⟩).lookup k) ∧
      (∀ (i : Nat) (hd : i < d.rows.length) (hg : i < (1 : Nat)) (geo : Geometry),
          ([[("name", Value.vstr "a"),
             ("geometry", Value.vgeom (.point 1 2))]].get ⟨i, hg⟩).lookup "geometry" =
            some (.vgeom geo) →
          (d.rows.get ⟨i, hd⟩).lookup "geometry" = some (.vstr (wkt geo))) :=
  c6_gdf_to_csv
    ⟨[[("name", .vstr "a"), ("geometry", .vgeom (.point 1 2))]], some "EPSG:4326"⟩
    "CSV (general)" rfl

/-! ## Claim C8 — typed results and error propagation -/

/-- Claim C8 is false on the code: a conversion request whose loaded data
is a GeoDataFrame (a FeatureCollection uploaded under plain `JSON`) with
the plain target `Excel` makes `convert_file` return a bare `None`, and
the driver's tuple unpacking raises `TypeError` through the pipeline —
a component result that is neither a typed value nor a typed error. -/
theorem c8_counterexample :
    run_pipeline
        ⟨"d.json", 5, .jsonVal (.jobj
          [("type", .jstr "FeatureCollection"),
           ("features", .jarr [.jobj
             [("type", .jstr "Feature"),
              ("geometry", .jobj [("type", .jstr "Point"),
                                  ("coordinates", .jarr [.jnum 1, .jnum 2])]),
              ("properties", .jobj [("name", .jstr "a")])]])])⟩
        "JSON" "Excel" [] =
      .crash "TypeError: cannot unpack non-iterable NoneType object" := rfl

/-- Claim C8 (amended): `load_file` and `convert_file` return `(value,
error)` pairs whose error the driver surfaces unmodified, stopping at the
first failing stage; but `get_download_data` has no error channel at all —
for a format matching no branch it returns bare `None` rather than a
value-or-error result, and `convert_file` itself can return bare `None`
(see C10), so the pipeline is not uniformly typed-result based. -/
theorem c8_amended :
    (∀ (f : UploadedFile) (i o : String) (af : List UploadedFile) (e : String),
        load_file f i af = .err e → run_pipeline f i o af = .loadError e) ∧
    (∀ (f : UploadedFile) (i o : String) (af : List UploadedFile) (d : Data)
        (e : String),
        load_file f i af = .ok d → convert_file d o = some (.err e) →
        run_pipeline f i o af = .convertError e) ∧
    get_download_data (.df ⟨[]⟩) "TXT" = .pyNone := by
  refine ⟨?_, ?_, rfl⟩
  · intro f i o af e h
    simp [run_pipeline, h]
  · intro f i o af d e h₁ h₂
    simp [run_pipeline, h₁, h₂]

/-- Concrete instances of the amended Claim C8: a failing load stops the
pipeline with the load error verbatim; a failing conversion stops it with
the convert error verbatim. -/
theorem c8_amended_witness :
    run_pipeline ⟨"a.json", 9, .raw "oops"⟩ "JSON" "XML" [] =
      .loadError "Error loading file: Expecting value: line 1 column 1 (char 0)" ∧
    run_pipeline ⟨"b.csv", 9, .csv [["a"], ["x"]]⟩ "CSV (general)" "KML/KMZ" [] =
      .convertError "Data must be spatial (GeoDataFrame) for this format" :=
  ⟨c8_amended.1 ⟨"a.json", 9, .raw "oops"⟩ "JSON" "XML" [] _ rfl,
   c8_amended.2.1 ⟨"b.csv", 9, .csv [["a"], ["x"]]⟩ "CSV (general)" "KML/KMZ" []
     (.df ⟨[[("a", .vstr "x")]]⟩) _ rfl rfl⟩

/-! ## Claim C9 — JSON and GeoJSON ingestion -/

/-- The tag of an XML node (empty for text nodes). -/
def xmlTag : Xml → String
| .elem t _ => t
| .text _ => ""

/-- Once the emitted keys contain `k`, an association list whose keys are
all `k` contributes no further unique keys. -/
theorem uniqueKeysAux_of_seen (k : String) (ps : List (String × JValue))
    (h : ∀ p ∈ ps, p.1 = k) (seen : List String)
    (hs : seen.contains k = true) :
    uniqueKeysAux seen ps = [] := by
  induction ps with
  | nil => rfl
  | cons p rest ih =>
    obtain ⟨k₀, v₀⟩ := p
    have hk₀ : k₀ = k := h (k₀, v₀) (by simp)
    subst hk₀
    rw [show uniqueKeysAux seen ((k₀, v₀) :: rest) =
        if seen.contains k₀ then uniqueKeysAux seen rest
        else k₀ :: uniqueKeysAux (k₀ :: seen) rest from rfl]
    rw [if_pos hs]
    exact ih (fun q hq => h q (List.mem_cons_of_mem _ hq))

/-- The unique keys of a constant-key association list collapse to that
single key. -/
theorem uniqueKeys_const (k : String) (v : JValue) (ps : List (String × JValue))
    (h : ∀ p ∈ ps, p.1 = k) :
    uniqueKeys ((k, v) :: ps) = [k] := by
  simp [uniqueKeys, uniqueKeysAux]
  exact uniqueKeysAux_of_seen k ps h [k] (by simp)

/-- Grouping a constant-key pair list with at least two entries produces a
single-field object holding the value list (`xmltodict`'s repeated-tag
collapse). -/
theorem groupPairs_const_key (k : String) (v₁ v₂ : JValue)
    (rest : List (String × JValue)) (hrest : ∀ p ∈ rest, p.1 = k) :
    groupPairs ((k, v₁) :: (k, v₂) :: rest) =
      .jobj [(k, .jarr (v₁ :: v₂ :: rest.map Prod.snd))] := by
  have hkeys : uniqueKeys ((k, v₁) :: (k, v₂) :: rest) = [k] := by
    refine uniqueKeys_const k v₁ ((k, v₂) :: rest) ?_
    intro p hp
    rcases List.mem_cons.mp hp with h | h
    · rw [h]
    · exact hrest p h
  have hfilter : (((k, v₁) :: (k, v₂) :: rest).filter (fun p => p.1 == k)) =
      (k, v₁) :: (k, v₂) :: rest := by
    refine List.filter_eq_self.mpr ?_
    intro p hp
    rcases List.mem_cons.mp hp with h | h
    · simp [h]
    · rcases List.mem_cons.mp h with h | h
      · simp [h]
      · simp [hrest p h]
  simp [groupPairs, hkeys, entryOf, hfilter]

/-- The (tag, value) pairs `xmltodict.parse` extracts from a serialized
record sequence: every child is a `record` element. -/
theorem xmlChildPairs_map_recordElem (rows : List Row) :
    xmlChildPairs (rows.map recordElem) =
      rows.map (fun r => ("record", xmlVal (recordElem r))) := by
  induction rows with
  | nil => rfl
  | cons r rest ih => simp [recordElem, xmlChildPairs, ih]

/-- Claim C7 is false on the code in its round-trip half: serializing the
two-record frame with single column `a` to XML produces the expected
`<root>`/`<record>` markup, but re-loading those bytes with the XML loader
yields a ONE-record frame whose only column is `root.record` (holding the
whole nested record list), not the original column `a` with its values. -/
theorem c7_counterexample :
    get_download_data (.df ⟨[[("a", .vint 1)], [("a", .vint 2)]]⟩) "XML" =
      .bytes "<?xml version=\"1.0\" encoding=\"utf-8\"?>\n<root><record><a>1</a></record><record><a>2</a></record></root>"
        "application/xml" ∧
    load_file ⟨"converted.xml", 64,
        .xml (.elem "root" [.elem "record" [.elem "a" [.text "1"]],
                            .elem "record" [.elem "a" [.text "2"]]])⟩ "XML" [] =
      .ok (.df ⟨[[("root.record",
        .vjson (.jarr [.jobj [("a", .jstr "1")], .jobj [("a", .jstr "2")]]))]]⟩) := by
  constructor
  · simp only [get_download_data, xmlDecl, renderXml, renderXmlList, recordElem,
      fieldElem, jOfValue, elemsOfKeyVal, rowsOf, containsSub, listSub, listHasPrefix]
    rfl
  · simp [load_file, xmlParseDoc, xmlVal, xmlChildPairs, groupPairs, uniqueKeys,
      uniqueKeysAux, entryOf, json_normalize, flattenFields, scalarValue,
      containsSub, listSub, listHasPrefix]

/-- Claim C7 (amended): serializing any record set to XML wraps it under
one fixed `root` element containing exactly one `record` element per
record; but re-loading the produced document with the XML loader does NOT
reproduce the field set — for any frame with at least two records the
loader returns a single record with the single column `root.record`
holding the nested record list, because `pd.json_normalize` does not
descend into the list that `xmltodict.parse` rebuilds. -/
theorem c7_amended :
    (∀ data : Data,
        get_download_data data "XML" =
          .bytes (xmlDecl ++ renderXml (.elem "root" ((rowsOf data).map recordElem)))
            "application/xml" ∧
        ((rowsOf data).map recordElem).map xmlTag =
          List.replicate (rowsOf data).length "record") ∧
    (∀ (r₁ r₂ : Row) (rest : List Row) (nm : String) (sz : Nat)
        (af : List UploadedFile),
        load_file ⟨nm, sz, .xml (.elem "root" ((r₁ :: r₂ :: rest).map recordElem))⟩
            "XML" af =
          .ok (.df ⟨[[("root.record",
            .vjson (.jarr ((r₁ :: r₂ :: rest).map (fun r => xmlVal (recordElem r)))))]]⟩)) := by
  constructor
  · intro data
    refine ⟨rfl, ?_⟩
    simp [recordElem, xmlTag, List.map_map]
    exact List.map_const' _ "record"
  · intro r₁ r₂ rest nm sz af
    have hval : xmlVal (.elem "root" ((r₁ :: r₂ :: rest).map recordElem)) =
        .jobj [("record", .jarr ((r₁ :: r₂ :: rest).map (fun r => xmlVal (recordElem r))))] := by
      rw [List.map_cons, List.map_cons]
      have h₁ : recordElem r₁ = .elem "record" (r₁.flatMap fieldElem) := rfl
      have h₂ : recordElem r₂ = .elem "record" (r₂.flatMap fieldElem) := rfl
      rw [h₁, h₂]
      rw [show xmlVal (.elem "root"
          (Xml.elem "record" (r₁.flatMap fieldElem) ::
           Xml.elem "record" (r₂.flatMap fieldElem) :: rest.map recordElem)) =
        groupPairs (xmlChildPairs
          (Xml.elem "record" (r₁.flatMap fieldElem) ::
           Xml.elem "record" (r₂.flatMap fieldElem) :: rest.map recordElem)) from by
        simp [xmlVal]]
      rw [show (Xml.elem "record" (r₁.flatMap fieldElem) ::
           Xml.elem "record" (r₂.flatMap fieldElem) :: rest.map recordElem) =
          (r₁ :: r₂ :: rest).map recordElem from by simp [recordElem]]
      rw [xmlChildPairs_map_recordElem]
      rw [List.map_cons, List.map_cons]
      rw [groupPairs_const_key "record" _ _ _ (by intro p hp; simp at hp; obtain ⟨r, _, hr⟩ := hp; simp [← hr])]
      simp [List.map_map]
    simp only [load_file, xmlParseDoc, containsSub, listSub, listHasPrefix]
    rw [hval]
    simp only [json_normalize, flattenFields, scalarValue]
    rfl

end FileConverter
